import Mathlib

/-!
# Adafruit 1.30" TFT adapter (adafruit_130_tft.c)

A shallow embedding of the panel adapter: the two rendering entry points
(`render`, `draw_point`), the bring-up routine (`common_init`) and the two
creation paths (`adafruit_130_tft_init`, `adafruit_130_tft_init_static`).

The ST7789 controller driver is an external collaborator.  It is modelled as
an arbitrary deterministic oracle (`Driver`): the status a driver call reports
may depend on the call and on every driver call made before it.  Every driver
call the adapter makes is appended to a trace, so that "which calls, in which
order, with which arguments" is a statement about that trace.

Diagnostics (`ESP_LOGE`) are not driver calls and are not part of the trace.
-/

namespace Adafruit130Tft

/-! ## Platform types -/

/-- Status code of ESP-IDF, `esp_err_t` (a signed 32-bit integer). -/
abbrev esp_err_t := Int

/-- Success status of ESP-IDF, `ESP_OK`. -/
def ESP_OK : esp_err_t := 0

/-- Device handle of the controller driver, `st7789_device_handle_t` (a pointer,
modelled by its address). -/
abbrev st7789_device_handle_t := Nat

/-- Modelled from the spec: the creation parameters `st7789_params_t` are declared
in `st7789.h`, which is not part of the sources.  The adapter only forwards them to
the driver, so only their identity matters here. -/
structure st7789_params_t where
  raw : List Nat
deriving DecidableEq, Repr

/-- The configuration constants of `st7789.h` that the adapter passes to the
driver.  The header is not part of the sources, so their values are a parameter of
every definition that uses them. -/
structure st7789_cfg where
  ST7789_CFG_BCKL_OFF : Nat
  ST7789_CFG_BCKL_ON : Nat
  ST7789_CFG_16_BIT_COLOR : Nat
  ST7789_CFG_MIRROR_X : Nat
deriving DecidableEq, Repr

/-! ## The controller driver as an oracle, and the trace of calls -/

/-- One call into the controller driver, with its arguments.  Pixel buffers are
represented by their contents. -/
inductive DriverCall where
  | init (params : st7789_params_t)
  | init_static (params : st7789_params_t) (device : st7789_device_handle_t)
  | backlight (device : st7789_device_handle_t) (level : Nat)
  | hwreset (device : st7789_device_handle_t)
  | swreset (device : st7789_device_handle_t)
  | slpout (device : st7789_device_handle_t)
  | colmod (device : st7789_device_handle_t) (mode : Nat)
  | madctl (device : st7789_device_handle_t) (mask : Nat)
  | invon (device : st7789_device_handle_t)
  | noron (device : st7789_device_handle_t)
  | dispon (device : st7789_device_handle_t)
  | caset (device : st7789_device_handle_t) (x0 x1 : Nat)
  | raset (device : st7789_device_handle_t) (y0 y1 : Nat)
  | ramwr (device : st7789_device_handle_t) (buffer : List Nat) (count : Nat)
  | paint (device : st7789_device_handle_t) (buffer : List Nat) (x0 x1 y0 y1 : Nat)
deriving DecidableEq, Repr

/-- The device a driver call addresses (`none` for `st7789_init`, which is given
no device but creates one). -/
def DriverCall.target : DriverCall → Option st7789_device_handle_t
  | .init _ => none
  | .init_static _ d => some d
  | .backlight d _ => some d
  | .hwreset d => some d
  | .swreset d => some d
  | .slpout d => some d
  | .colmod d _ => some d
  | .madctl d _ => some d
  | .invon d => some d
  | .noron d => some d
  | .dispon d => some d
  | .caset d _ _ => some d
  | .raset d _ _ => some d
  | .ramwr d _ _ => some d
  | .paint d _ _ _ _ _ => some d

/-- The external driver: `status past c` is the status that call `c` reports when
`past` are the driver calls made before it; `new_device past params` is the handle
`st7789_init` hands back. -/
structure Driver where
  status : List DriverCall → DriverCall → esp_err_t
  new_device : List DriverCall → st7789_params_t → st7789_device_handle_t

/-- Perform one driver call: record it and obtain its status. -/
def invoke (drv : Driver) (c : DriverCall) (tr : List DriverCall) :
    esp_err_t × List DriverCall :=
  (drv.status tr c, tr ++ [c])

def st7789_backlight (drv : Driver) (device : st7789_device_handle_t) (level : Nat)
    (tr : List DriverCall) : esp_err_t × List DriverCall :=
  invoke drv (.backlight device level) tr

def st7789_hwreset (drv : Driver) (device : st7789_device_handle_t)
    (tr : List DriverCall) : esp_err_t × List DriverCall :=
  invoke drv (.hwreset device) tr

def st7789_swreset (drv : Driver) (device : st7789_device_handle_t)
    (tr : List DriverCall) : esp_err_t × List DriverCall :=
  invoke drv (.swreset device) tr

def st7789_slpout (drv : Driver) (device : st7789_device_handle_t)
    (tr : List DriverCall) : esp_err_t × List DriverCall :=
  invoke drv (.slpout device) tr

def st7789_colmod (drv : Driver) (device : st7789_device_handle_t) (mode : Nat)
    (tr : List DriverCall) : esp_err_t × List DriverCall :=
  invoke drv (.colmod device mode) tr

def st7789_madctl (drv : Driver) (device : st7789_device_handle_t) (mask : Nat)
    (tr : List DriverCall) : esp_err_t × List DriverCall :=
  invoke drv (.madctl device mask) tr

def st7789_invon (drv : Driver) (device : st7789_device_handle_t)
    (tr : List DriverCall) : esp_err_t × List DriverCall :=
  invoke drv (.invon device) tr

def st7789_noron (drv : Driver) (device : st7789_device_handle_t)
    (tr : List DriverCall) : esp_err_t × List DriverCall :=
  invoke drv (.noron device) tr

def st7789_dispon (drv : Driver) (device : st7789_device_handle_t)
    (tr : List DriverCall) : esp_err_t × List DriverCall :=
  invoke drv (.dispon device) tr

def st7789_caset (drv : Driver) (device : st7789_device_handle_t) (x0 x1 : Nat)
    (tr : List DriverCall) : esp_err_t × List DriverCall :=
  invoke drv (.caset device x0 x1) tr

def st7789_raset (drv : Driver) (device : st7789_device_handle_t) (y0 y1 : Nat)
    (tr : List DriverCall) : esp_err_t × List DriverCall :=
  invoke drv (.raset device y0 y1) tr

def st7789_ramwr (drv : Driver) (device : st7789_device_handle_t) (buffer : List Nat)
    (count : Nat) (tr : List DriverCall) : esp_err_t × List DriverCall :=
  invoke drv (.ramwr device buffer count) tr

def st7789_paint (drv : Driver) (device : st7789_device_handle_t) (buffer : List Nat)
    (x0 x1 y0 y1 : Nat) (tr : List DriverCall) : esp_err_t × List DriverCall :=
  invoke drv (.paint device buffer x0 x1 y0 y1) tr

/-- Device creation by the driver: `st7789_init(params)` returns the new handle. -/
def st7789_init (drv : Driver) (params : st7789_params_t) (tr : List DriverCall) :
    st7789_device_handle_t × List DriverCall :=
  (drv.new_device tr params, tr ++ [.init params])

/-- In-place device creation by the driver: `st7789_init_static(params, device)`. -/
def st7789_init_static (drv : Driver) (params : st7789_params_t)
    (device : st7789_device_handle_t) (tr : List DriverCall) : List DriverCall :=
  (invoke drv (.init_static params device) tr).2

/-! ## The panel descriptor -/

/-- Modelled from the spec: the enumeration `tft_orientation_t` is declared in the
TFT interface header, which is not part of the sources.  The adapter only names
`TFT_UPRIGHT`; every other enumerator is `TFT_OTHER`. -/
inductive tft_orientation_t where
  | TFT_UPRIGHT
  | TFT_OTHER (code : Nat)
deriving DecidableEq, Repr

/-- The `info` part of the descriptor (`tft_info_t`), with the fields the adapter
writes. -/
structure tft_info_t where
  bitdepth : Nat
  width : Nat
  height : Nat
  orientation : tft_orientation_t
  device : st7789_device_handle_t
deriving DecidableEq, Repr

/-- A region-render operation as stored in the descriptor's `render16` slot:
info, buffer, x0, y0, x1, y1. -/
abbrev render16_fn :=
  Driver → tft_info_t → List Nat → Nat → Nat → Nat → Nat → List DriverCall →
    esp_err_t × List DriverCall

/-- A single-pixel operation as stored in the descriptor's `draw16_point` slot:
info, color, x, y. -/
abbrev draw16_point_fn :=
  Driver → tft_info_t → Nat → Nat → Nat → List DriverCall → esp_err_t × List DriverCall

/-- An orientation-change operation as stored in the `set_orientation` slot. -/
abbrev set_orientation_fn :=
  Driver → tft_info_t → tft_orientation_t → List DriverCall →
    esp_err_t × tft_info_t × List DriverCall

/-- The descriptor `tft_t`.  A function-pointer slot holds `none` for `NULL`. -/
structure tft_t where
  info : tft_info_t
  set_orientation : Option set_orientation_fn
  render16 : Option render16_fn
  draw16_point : Option draw16_point_fn

/-! ## Panel constants -/

def ADAFRUIT_130_TFT_BITDEPTH : Nat := 16
def ADAFRUIT_130_TFT_WIDTH : Nat := 240
def ADAFRUIT_130_TFT_HEIGHT : Nat := 240
def ADAFRUIT_130_TFT_OFFSET_X : Nat := 0
def ADAFRUIT_130_TFT_OFFSET_Y : Nat := 0

/-! ## Rendering entry points -/

/-- Region render.  The coordinates are `uint8_t`; the sums are computed in `int`
after integer promotion, so they do not wrap. -/
def render (drv : Driver) (tft_info : tft_info_t) (buffer : List Nat)
    (x0 y0 x1 y1 : Nat) (tr : List DriverCall) : esp_err_t × List DriverCall :=
  st7789_paint drv tft_info.device buffer
    (x0 + ADAFRUIT_130_TFT_OFFSET_X)
    (x1 + ADAFRUIT_130_TFT_OFFSET_X)
    (y0 + ADAFRUIT_130_TFT_OFFSET_Y)
    (y1 + ADAFRUIT_130_TFT_OFFSET_Y)
    tr

/-- Single-pixel draw.  `xo` and `yo` are `uint8_t` locals, so the sums are reduced
modulo 256 when stored. -/
def draw_point (drv : Driver) (tft_info : tft_info_t) (color : Nat) (x y : Nat)
    (tr : List DriverCall) : esp_err_t × List DriverCall :=
  let xo := (x + ADAFRUIT_130_TFT_OFFSET_X) % 256
  let yo := (y + ADAFRUIT_130_TFT_OFFSET_Y) % 256
  let device := tft_info.device
  let r := st7789_caset drv device xo xo tr
  if r.1 ≠ ESP_OK then
    (r.1, r.2)
  else
    let r := st7789_raset drv device yo yo r.2
    if r.1 ≠ ESP_OK then
      (r.1, r.2)
    else
      let r := st7789_ramwr drv device [color] 1 r.2
      (r.1, r.2)

/-! ## Bring-up -/

/-- How a routine ends: it returns a value, or `ESP_ERROR_CHECK` aborts with the
failing status, or `esp_restart` restarts the chip. -/
inductive Outcome (α : Type) where
  | returned (value : α)
  | aborted (code : esp_err_t)
  | restarted

/-- The bring-up routine.  `ESP_ERROR_CHECK(ret)` is the check of ESP-IDF (`esp_err.h`,
not part of the sources); in its default configuration, and as the specification
describes it, a status other than `ESP_OK` is fatal: the program is aborted and the
routine does not return.  The result is the way the routine ended, the descriptor
memory as it then is, and the trace. -/
def common_init (cfg : st7789_cfg) (drv : Driver) (tft : tft_t)
    (device : st7789_device_handle_t) (tr : List DriverCall) :
    Outcome Unit × tft_t × List DriverCall :=
  let tr := (st7789_backlight drv device cfg.ST7789_CFG_BCKL_OFF tr).2
  let tr := (st7789_hwreset drv device tr).2
  let r := st7789_swreset drv device tr
  if r.1 ≠ ESP_OK then (.aborted r.1, tft, r.2) else
  let r := st7789_slpout drv device r.2
  if r.1 ≠ ESP_OK then (.aborted r.1, tft, r.2) else
  let r := st7789_colmod drv device cfg.ST7789_CFG_16_BIT_COLOR r.2
  if r.1 ≠ ESP_OK then (.aborted r.1, tft, r.2) else
  let r := st7789_madctl drv device cfg.ST7789_CFG_MIRROR_X r.2
  if r.1 ≠ ESP_OK then (.aborted r.1, tft, r.2) else
  let r := st7789_invon drv device r.2
  if r.1 ≠ ESP_OK then (.aborted r.1, tft, r.2) else
  let r := st7789_noron drv device r.2
  if r.1 ≠ ESP_OK then (.aborted r.1, tft, r.2) else
  let r := st7789_dispon drv device r.2
  if r.1 ≠ ESP_OK then (.aborted r.1, tft, r.2) else
  let tr := (st7789_backlight drv device cfg.ST7789_CFG_BCKL_ON r.2).2
  (.returned (),
   { tft with
     info := { tft.info with
       bitdepth := ADAFRUIT_130_TFT_BITDEPTH
       width := ADAFRUIT_130_TFT_WIDTH
       height := ADAFRUIT_130_TFT_HEIGHT
       orientation := .TFT_UPRIGHT
       device := device }
     set_orientation := none
     render16 := some render
     draw16_point := some draw_point },
   tr)

/-- Dynamic creation path.  `malloc` is what the allocator hands back: `none` for
`NULL`, `some t` for a fresh block whose prior content is `t`. -/
def adafruit_130_tft_init (cfg : st7789_cfg) (drv : Driver) (params : st7789_params_t)
    (malloc : Option tft_t) (tr : List DriverCall) :
    Outcome tft_t × List DriverCall :=
  let d := st7789_init drv params tr
  match malloc with
  | none => (.restarted, d.2)
  | some tft =>
    match common_init cfg drv tft d.1 d.2 with
    | (.returned _, tft', tr') => (.returned tft', tr')
    | (.aborted code, _, tr') => (.aborted code, tr')
    | (.restarted, _, tr') => (.restarted, tr')

/-- Pre-allocated creation path. -/
def adafruit_130_tft_init_static (cfg : st7789_cfg) (drv : Driver)
    (params : st7789_params_t) (tft : tft_t) (device : st7789_device_handle_t)
    (tr : List DriverCall) : Outcome Unit × tft_t × List DriverCall :=
  let tr := st7789_init_static drv params device tr
  common_init cfg drv tft device tr

/-! ## Vocabulary for the statements -/

/-- The ten commands of the bring-up sequence, in order, for a device. -/
def init_sequence (cfg : st7789_cfg) (device : st7789_device_handle_t) :
    List DriverCall :=
  [ .backlight device cfg.ST7789_CFG_BCKL_OFF,
    .hwreset device,
    .swreset device,
    .slpout device,
    .colmod device cfg.ST7789_CFG_16_BIT_COLOR,
    .madctl device cfg.ST7789_CFG_MIRROR_X,
    .invon device,
    .noron device,
    .dispon device,
    .backlight device cfg.ST7789_CFG_BCKL_ON ]

/-- The statuses a list of calls reports when made one after the other, starting
after the calls `tr`. -/
def statuses (drv : Driver) : List DriverCall → List DriverCall → List esp_err_t
  | _, [] => []
  | tr, c :: cs => drv.status tr c :: statuses drv (tr ++ [c]) cs

/-- The status that step `k` (counted from 0) of the bring-up sequence reports when
the steps before it have been made, starting after the calls `tr`.  The mandatory
steps are 2 to 8. -/
def step_status (cfg : st7789_cfg) (drv : Driver) (device : st7789_device_handle_t)
    (tr : List DriverCall) (k : Nat) : esp_err_t :=
  drv.status (tr ++ (init_sequence cfg device).take k)
    ((init_sequence cfg device).getD k (.hwreset device))

/-- The three driver calls of a single-pixel draw, in order, with the coordinates
as `draw_point` stores them in its `uint8_t` locals. -/
def point_calls (info : tft_info_t) (color x y : Nat) : List DriverCall :=
  [ .caset info.device ((x + ADAFRUIT_130_TFT_OFFSET_X) % 256)
      ((x + ADAFRUIT_130_TFT_OFFSET_X) % 256),
    .raset info.device ((y + ADAFRUIT_130_TFT_OFFSET_Y) % 256)
      ((y + ADAFRUIT_130_TFT_OFFSET_Y) % 256),
    .ramwr info.device [color] 1 ]

/-- The status that step `k` (counted from 0) of a single-pixel draw reports when the
steps before it have been made, starting after the calls `tr`. -/
def point_status (drv : Driver) (info : tft_info_t) (color x y : Nat)
    (tr : List DriverCall) (k : Nat) : esp_err_t :=
  drv.status (tr ++ (point_calls info color x y).take k)
    ((point_calls info color x y).getD k (.hwreset info.device))

/-- The three driver calls of a single-pixel draw with the offset-adjusted
coordinates taken as they are: no reduction, no clipping to the panel. -/
def unclipped_point_calls (info : tft_info_t) (color x y : Nat) : List DriverCall :=
  [ .caset info.device (x + ADAFRUIT_130_TFT_OFFSET_X) (x + ADAFRUIT_130_TFT_OFFSET_X),
    .raset info.device (y + ADAFRUIT_130_TFT_OFFSET_Y) (y + ADAFRUIT_130_TFT_OFFSET_Y),
    .ramwr info.device [color] 1 ]

/-- The status that step `k` (counted from 0) of `unclipped_point_calls` reports when
the steps before it have been made, starting after the calls `tr`. -/
def unclipped_point_status (drv : Driver) (info : tft_info_t) (color x y : Nat)
    (tr : List DriverCall) (k : Nat) : esp_err_t :=
  drv.status (tr ++ (unclipped_point_calls info color x y).take k)
    ((unclipped_point_calls info color x y).getD k (.hwreset info.device))

/-- A populated descriptor as the specification describes it: bit depth 16, 240 by
240, upright, bound to `device`, no orientation-change operation, and the adapter's
two rendering operations. -/
def ready_descriptor (device : st7789_device_handle_t) : tft_t where
  info := { bitdepth := 16, width := 240, height := 240, orientation := .TFT_UPRIGHT,
            device := device }
  set_orientation := none
  render16 := some render
  draw16_point := some draw_point

/-- A driver whose every call succeeds and whose new devices get handle 7. -/
def okDriver : Driver where
  status := fun _ _ => ESP_OK
  new_device := fun _ _ => 7

/-- A driver whose calls succeed except color-mode set, which reports `-1`. -/
def colmodFailsDriver : Driver where
  status := fun _ c =>
    match c with
    | .colmod _ _ => -1
    | _ => ESP_OK
  new_device := fun _ _ => 7

/-- Sample values for the driver's configuration constants. -/
def sampleCfg : st7789_cfg where
  ST7789_CFG_BCKL_OFF := 0
  ST7789_CFG_BCKL_ON := 1
  ST7789_CFG_16_BIT_COLOR := 0x55
  ST7789_CFG_MIRROR_X := 0x40

/-- A descriptor with arbitrary prior content. -/
def blankTft : tft_t where
  info := { bitdepth := 0, width := 0, height := 0, orientation := .TFT_OTHER 3, device := 0 }
  set_orientation := none
  render16 := none
  draw16_point := none

/-! ## Bring-up: the shape of every run -/

/-- Every run of `common_init` either passes all seven checked steps, issues the whole
sequence and populates the descriptor, or aborts at the first checked step that does
not report `ESP_OK`, having issued the sequence up to that step and leaving the
descriptor as it was. -/
theorem common_init_cases (cfg : st7789_cfg) (drv : Driver) (tft : tft_t)
    (device : st7789_device_handle_t) (tr : List DriverCall) :
    ((∀ k, 2 ≤ k → k ≤ 8 → step_status cfg drv device tr k = ESP_OK) ∧
      common_init cfg drv tft device tr =
        (.returned (), ready_descriptor device, tr ++ init_sequence cfg device))
    ∨ (∃ j, 2 ≤ j ∧ j ≤ 8 ∧ step_status cfg drv device tr j ≠ ESP_OK ∧
        (∀ i, 2 ≤ i → i < j → step_status cfg drv device tr i = ESP_OK) ∧
        common_init cfg drv tft device tr =
          (.aborted (step_status cfg drv device tr j), tft,
           tr ++ (init_sequence cfg device).take (j + 1))) := by
  by_cases h2 : step_status cfg drv device tr 2 = ESP_OK
  swap
  · refine Or.inr ⟨2, by omega, by omega, h2, ?_, ?_⟩
    · intro i hi hlt
      omega
    · simp only [step_status, init_sequence] at h2 ⊢
      simp at h2
      simp [common_init, st7789_backlight, st7789_hwreset, st7789_swreset, st7789_slpout, st7789_colmod,
      st7789_madctl, st7789_invon, st7789_noron, st7789_dispon, invoke,
        h2]
  by_cases h3 : step_status cfg drv device tr 3 = ESP_OK
  swap
  · refine Or.inr ⟨3, by omega, by omega, h3, ?_, ?_⟩
    · intro i hi hlt
      have e : i = 2 := by omega
      rw [e]
      exact h2
    · simp only [step_status, init_sequence] at h2 h3 ⊢
      simp at h2 h3
      simp [common_init, st7789_backlight, st7789_hwreset, st7789_swreset, st7789_slpout, st7789_colmod,
      st7789_madctl, st7789_invon, st7789_noron, st7789_dispon, invoke,
        h2, h3]
  by_cases h4 : step_status cfg drv device tr 4 = ESP_OK
  swap
  · refine Or.inr ⟨4, by omega, by omega, h4, ?_, ?_⟩
    · intro i hi hlt
      interval_cases i <;> assumption
    · simp only [step_status, init_sequence] at h2 h3 h4 ⊢
      simp at h2 h3 h4
      simp [common_init, st7789_backlight, st7789_hwreset, st7789_swreset, st7789_slpout, st7789_colmod,
      st7789_madctl, st7789_invon, st7789_noron, st7789_dispon, invoke,
        h2, h3, h4]
  by_cases h5 : step_status cfg drv device tr 5 = ESP_OK
  swap
  · refine Or.inr ⟨5, by omega, by omega, h5, ?_, ?_⟩
    · intro i hi hlt
      interval_cases i <;> assumption
    · simp only [step_status, init_sequence] at h2 h3 h4 h5 ⊢
      simp at h2 h3 h4 h5
      simp [common_init, st7789_backlight, st7789_hwreset, st7789_swreset, st7789_slpout, st7789_colmod,
      st7789_madctl, st7789_invon, st7789_noron, st7789_dispon, invoke,
        h2, h3, h4, h5]
  by_cases h6 : step_status cfg drv device tr 6 = ESP_OK
  swap
  · refine Or.inr ⟨6, by omega, by omega, h6, ?_, ?_⟩
    · intro i hi hlt
      interval_cases i <;> assumption
    · simp only [step_status, init_sequence] at h2 h3 h4 h5 h6 ⊢
      simp at h2 h3 h4 h5 h6
      simp [common_init, st7789_backlight, st7789_hwreset, st7789_swreset, st7789_slpout, st7789_colmod,
      st7789_madctl, st7789_invon, st7789_noron, st7789_dispon, invoke,
        h2, h3, h4, h5, h6]
  by_cases h7 : step_status cfg drv device tr 7 = ESP_OK
  swap
  · refine Or.inr ⟨7, by omega, by omega, h7, ?_, ?_⟩
    · intro i hi hlt
      interval_cases i <;> assumption
    · simp only [step_status, init_sequence] at h2 h3 h4 h5 h6 h7 ⊢
      simp at h2 h3 h4 h5 h6 h7
      simp [common_init, st7789_backlight, st7789_hwreset, st7789_swreset, st7789_slpout, st7789_colmod,
      st7789_madctl, st7789_invon, st7789_noron, st7789_dispon, invoke,
        h2, h3, h4, h5, h6, h7]
  by_cases h8 : step_status cfg drv device tr 8 = ESP_OK
  swap
  · refine Or.inr ⟨8, by omega, by omega, h8, ?_, ?_⟩
    · intro i hi hlt
      interval_cases i <;> assumption
    · simp only [step_status, init_sequence] at h2 h3 h4 h5 h6 h7 h8 ⊢
      simp at h2 h3 h4 h5 h6 h7 h8
      simp [common_init, st7789_backlight, st7789_hwreset, st7789_swreset, st7789_slpout, st7789_colmod,
      st7789_madctl, st7789_invon, st7789_noron, st7789_dispon, invoke,
        h2, h3, h4, h5, h6, h7, h8]
  refine Or.inl ⟨?_, ?_⟩
  · intro k hk hk8
    interval_cases k <;> assumption
  · simp only [step_status, init_sequence] at h2 h3 h4 h5 h6 h7 h8
    simp at h2 h3 h4 h5 h6 h7 h8
    simp [common_init, st7789_backlight, st7789_hwreset, st7789_swreset, st7789_slpout, st7789_colmod,
      st7789_madctl, st7789_invon, st7789_noron, st7789_dispon, invoke,
      h2, h3, h4, h5, h6, h7, h8, ready_descriptor, init_sequence,
      ADAFRUIT_130_TFT_BITDEPTH, ADAFRUIT_130_TFT_WIDTH, ADAFRUIT_130_TFT_HEIGHT]

/-- The pre-allocated path is the device set-up call followed by `common_init`. -/
theorem init_static_cases (cfg : st7789_cfg) (drv : Driver) (params : st7789_params_t)
    (tft : tft_t) (device : st7789_device_handle_t) (tr : List DriverCall) :
    ((∀ k, 2 ≤ k → k ≤ 8 →
        step_status cfg drv device (tr ++ [.init_static params device]) k = ESP_OK) ∧
      adafruit_130_tft_init_static cfg drv params tft device tr =
        (.returned (), ready_descriptor device,
         tr ++ [.init_static params device] ++ init_sequence cfg device))
    ∨ (∃ j, 2 ≤ j ∧ j ≤ 8 ∧
        step_status cfg drv device (tr ++ [.init_static params device]) j ≠ ESP_OK ∧
        (∀ i, 2 ≤ i → i < j →
          step_status cfg drv device (tr ++ [.init_static params device]) i = ESP_OK) ∧
        adafruit_130_tft_init_static cfg drv params tft device tr =
          (.aborted (step_status cfg drv device (tr ++ [.init_static params device]) j), tft,
           tr ++ [.init_static params device] ++ (init_sequence cfg device).take (j + 1))) := by
  have e : adafruit_130_tft_init_static cfg drv params tft device tr =
      common_init cfg drv tft device (tr ++ [.init_static params device]) := rfl
  rw [e]
  exact common_init_cases cfg drv tft device (tr ++ [.init_static params device])

/-- The dynamic path with a successful allocation is the device creation call followed
by `common_init` on the new device. -/
theorem init_dynamic_cases (cfg : st7789_cfg) (drv : Driver) (params : st7789_params_t)
    (tft : tft_t) (tr : List DriverCall) :
    ((∀ k, 2 ≤ k → k ≤ 8 →
        step_status cfg drv (drv.new_device tr params) (tr ++ [.init params]) k = ESP_OK) ∧
      adafruit_130_tft_init cfg drv params (some tft) tr =
        (.returned (ready_descriptor (drv.new_device tr params)),
         tr ++ [.init params] ++ init_sequence cfg (drv.new_device tr params)))
    ∨ (∃ j, 2 ≤ j ∧ j ≤ 8 ∧
        step_status cfg drv (drv.new_device tr params) (tr ++ [.init params]) j ≠ ESP_OK ∧
        (∀ i, 2 ≤ i → i < j →
          step_status cfg drv (drv.new_device tr params) (tr ++ [.init params]) i = ESP_OK) ∧
        adafruit_130_tft_init cfg drv params (some tft) tr =
          (.aborted (step_status cfg drv (drv.new_device tr params) (tr ++ [.init params]) j),
           tr ++ [.init params] ++
             (init_sequence cfg (drv.new_device tr params)).take (j + 1))) := by
  rcases common_init_cases cfg drv tft (drv.new_device tr params) (tr ++ [.init params]) with
    ⟨hok, e⟩ | ⟨j, h2, h8, hj, hbefore, e⟩
  · refine Or.inl ⟨hok, ?_⟩
    simp only [adafruit_130_tft_init, st7789_init, e]
  · refine Or.inr ⟨j, h2, h8, hj, hbefore, ?_⟩
    simp only [adafruit_130_tft_init, st7789_init, e]

/-! ## Rendering: the shape of every run -/

/-- The one call `render` makes. -/
theorem render_shape (drv : Driver) (info : tft_info_t) (buffer : List Nat)
    (x0 y0 x1 y1 : Nat) (tr : List DriverCall) :
    render drv info buffer x0 y0 x1 y1 tr =
      (drv.status tr
         (.paint info.device buffer
            (x0 + ADAFRUIT_130_TFT_OFFSET_X) (x1 + ADAFRUIT_130_TFT_OFFSET_X)
            (y0 + ADAFRUIT_130_TFT_OFFSET_Y) (y1 + ADAFRUIT_130_TFT_OFFSET_Y)),
       tr ++ [.paint info.device buffer
            (x0 + ADAFRUIT_130_TFT_OFFSET_X) (x1 + ADAFRUIT_130_TFT_OFFSET_X)
            (y0 + ADAFRUIT_130_TFT_OFFSET_Y) (y1 + ADAFRUIT_130_TFT_OFFSET_Y)]) := rfl

/-- The calls `draw_point` makes are a non-empty leading part of `point_calls`. -/
theorem draw_point_shape (drv : Driver) (info : tft_info_t) (color x y : Nat)
    (tr : List DriverCall) :
    ∃ n, 1 ≤ n ∧ n ≤ 3 ∧
      (draw_point drv info color x y tr).2 = tr ++ (point_calls info color x y).take n := by
  simp only [draw_point, st7789_caset, st7789_raset, st7789_ramwr, invoke]
  by_cases h1 : drv.status tr (.caset info.device ((x + ADAFRUIT_130_TFT_OFFSET_X) % 256)
      ((x + ADAFRUIT_130_TFT_OFFSET_X) % 256)) = ESP_OK
  · by_cases h2 : drv.status
        (tr ++ [.caset info.device ((x + ADAFRUIT_130_TFT_OFFSET_X) % 256)
          ((x + ADAFRUIT_130_TFT_OFFSET_X) % 256)])
        (.raset info.device ((y + ADAFRUIT_130_TFT_OFFSET_Y) % 256)
          ((y + ADAFRUIT_130_TFT_OFFSET_Y) % 256)) = ESP_OK
    · exact ⟨3, by omega, by omega, by simp [h1, h2, point_calls]⟩
    · exact ⟨2, by omega, by omega, by simp [h1, h2, point_calls]⟩
  · exact ⟨1, by omega, by omega, by simp [h1, point_calls]⟩

/-! ## Rendering: theorems -/

/-- C1: for in-range coordinates, when column-address-set, row-address-set and
memory-write all report success, `draw_point` issues exactly `caset(x+ox, x+ox)`,
`raset(y+oy, y+oy)` and `ramwr([color], 1)` on the descriptor's device, in this
order, and returns `ESP_OK`. -/
theorem draw_point_success (drv : Driver) (info : tft_info_t) (color x y : Nat)
    (tr : List DriverCall)
    (hx : x < 240) (hy : y < 240)
    (h1 : drv.status tr
      (.caset info.device (x + ADAFRUIT_130_TFT_OFFSET_X) (x + ADAFRUIT_130_TFT_OFFSET_X))
        = ESP_OK)
    (h2 : drv.status
      (tr ++ [.caset info.device (x + ADAFRUIT_130_TFT_OFFSET_X) (x + ADAFRUIT_130_TFT_OFFSET_X)])
      (.raset info.device (y + ADAFRUIT_130_TFT_OFFSET_Y) (y + ADAFRUIT_130_TFT_OFFSET_Y))
        = ESP_OK)
    (h3 : drv.status
      (tr ++ [.caset info.device (x + ADAFRUIT_130_TFT_OFFSET_X) (x + ADAFRUIT_130_TFT_OFFSET_X),
              .raset info.device (y + ADAFRUIT_130_TFT_OFFSET_Y) (y + ADAFRUIT_130_TFT_OFFSET_Y)])
      (.ramwr info.device [color] 1) = ESP_OK) :
    draw_point drv info color x y tr =
      (ESP_OK,
       tr ++ [.caset info.device (x + ADAFRUIT_130_TFT_OFFSET_X) (x + ADAFRUIT_130_TFT_OFFSET_X),
              .raset info.device (y + ADAFRUIT_130_TFT_OFFSET_Y) (y + ADAFRUIT_130_TFT_OFFSET_Y),
              .ramwr info.device [color] 1]) := by
  have ex : (x + ADAFRUIT_130_TFT_OFFSET_X) % 256 = x + ADAFRUIT_130_TFT_OFFSET_X := by
    apply Nat.mod_eq_of_lt
    simp only [ADAFRUIT_130_TFT_OFFSET_X]
    omega
  have ey : (y + ADAFRUIT_130_TFT_OFFSET_Y) % 256 = y + ADAFRUIT_130_TFT_OFFSET_Y := by
    apply Nat.mod_eq_of_lt
    simp only [ADAFRUIT_130_TFT_OFFSET_Y]
    omega
  simp only [draw_point, st7789_caset, st7789_raset, st7789_ramwr, invoke, ex, ey]
  simp [h1, h2, h3]

/-- The scenario of C1: with offset (0,0), `draw_point(0xF800, 10, 20)` on a driver
that reports success issues `caset(10,10)`, `raset(20,20)`, `ramwr([0xF800], 1)`. -/
theorem draw_point_success_witness :
    draw_point okDriver blankTft.info 0xF800 10 20 [] =
      (ESP_OK, [.caset 0 10 10, .raset 0 20 20, .ramwr 0 [0xF800] 1]) :=
  draw_point_success okDriver blankTft.info 0xF800 10 20 []
    (by decide) (by decide) rfl rfl rfl

/-- C2: `draw_point` stops at the first failing sub-step.  If `caset` fails, it is the
only call and its status is returned; otherwise, if `raset` fails, the calls are
`caset, raset` and the status of `raset` is returned; otherwise all three calls are
made and the status of `ramwr` is returned.  `ESP_OK` is returned exactly when all
three report `ESP_OK`. -/
theorem draw_point_short_circuit (drv : Driver) (info : tft_info_t) (color x y : Nat)
    (tr : List DriverCall) :
    ((point_status drv info color x y tr 0 ≠ ESP_OK ∧
       draw_point drv info color x y tr =
         (point_status drv info color x y tr 0,
          tr ++ (point_calls info color x y).take 1))
    ∨ (point_status drv info color x y tr 0 = ESP_OK ∧
       point_status drv info color x y tr 1 ≠ ESP_OK ∧
       draw_point drv info color x y tr =
         (point_status drv info color x y tr 1,
          tr ++ (point_calls info color x y).take 2))
    ∨ (point_status drv info color x y tr 0 = ESP_OK ∧
       point_status drv info color x y tr 1 = ESP_OK ∧
       draw_point drv info color x y tr =
         (point_status drv info color x y tr 2,
          tr ++ point_calls info color x y)))
    ∧ ((draw_point drv info color x y tr).1 = ESP_OK ↔
        (point_status drv info color x y tr 0 = ESP_OK ∧
         point_status drv info color x y tr 1 = ESP_OK ∧
         point_status drv info color x y tr 2 = ESP_OK)) := by
  by_cases h1 : point_status drv info color x y tr 0 = ESP_OK
  · by_cases h2 : point_status drv info color x y tr 1 = ESP_OK
    · have e : draw_point drv info color x y tr =
          (point_status drv info color x y tr 2, tr ++ point_calls info color x y) := by
        simp only [point_status, point_calls] at h1 h2
        simp at h1 h2
        simp [draw_point, st7789_caset, st7789_raset, st7789_ramwr, invoke, point_status,
          point_calls, h1, h2]
      refine ⟨Or.inr (Or.inr ⟨h1, h2, e⟩), ?_⟩
      rw [e]
      simp [h1, h2]
    · have e : draw_point drv info color x y tr =
          (point_status drv info color x y tr 1,
           tr ++ (point_calls info color x y).take 2) := by
        simp only [point_status, point_calls] at h1 h2
        simp at h1 h2
        simp [draw_point, st7789_caset, st7789_raset, st7789_ramwr, invoke, point_status,
          point_calls, h1, h2]
      refine ⟨Or.inr (Or.inl ⟨h1, h2, e⟩), ?_⟩
      rw [e]
      simp [h1, h2]
  · have e : draw_point drv info color x y tr =
        (point_status drv info color x y tr 0,
         tr ++ (point_calls info color x y).take 1) := by
      simp only [point_status, point_calls] at h1
      simp at h1
      simp [draw_point, st7789_caset, st7789_raset, st7789_ramwr, invoke, point_status,
        point_calls, h1]
    refine ⟨Or.inl ⟨h1, e⟩, ?_⟩
    rw [e]
    simp [h1]

/-- C3: `render` makes exactly one driver call, `st7789_paint`, on the descriptor's
device, with the buffer as given and the coordinates shifted by the fixed offset in
the order x0, x1, y0, y1, and returns the status of that call. -/
theorem render_delegates (drv : Driver) (info : tft_info_t) (buffer : List Nat)
    (x0 y0 x1 y1 : Nat) (tr : List DriverCall) :
    render drv info buffer x0 y0 x1 y1 tr =
      (drv.status tr
         (.paint info.device buffer
            (x0 + ADAFRUIT_130_TFT_OFFSET_X) (x1 + ADAFRUIT_130_TFT_OFFSET_X)
            (y0 + ADAFRUIT_130_TFT_OFFSET_Y) (y1 + ADAFRUIT_130_TFT_OFFSET_Y)),
       tr ++ [.paint info.device buffer
            (x0 + ADAFRUIT_130_TFT_OFFSET_X) (x1 + ADAFRUIT_130_TFT_OFFSET_X)
            (y0 + ADAFRUIT_130_TFT_OFFSET_Y) (y1 + ADAFRUIT_130_TFT_OFFSET_Y)]) := by
  simp [render, st7789_paint, invoke]

/-- C10: neither rendering operation clips or validates coordinates.  For every
8-bit coordinate, in range or not, `render` makes its one `st7789_paint` call with
the offset-adjusted coordinates and returns its status, and `draw_point` makes the
calls `caset(x+ox, x+ox)`, `raset(y+oy, y+oy)`, `ramwr([color], 1)` with the
offset-adjusted coordinates as they are, stopping only where the driver reports a
failure: how many calls are made depends on the driver statuses alone, never on the
coordinates.  The status returned is the status of the last call made. -/
theorem rendering_does_not_clip (drv : Driver) (info : tft_info_t) (buffer : List Nat)
    (color x0 y0 x1 y1 x y : Nat) (tr : List DriverCall)
    (hx : x < 256) (hy : y < 256) :
    render drv info buffer x0 y0 x1 y1 tr =
      (drv.status tr
         (.paint info.device buffer
            (x0 + ADAFRUIT_130_TFT_OFFSET_X) (x1 + ADAFRUIT_130_TFT_OFFSET_X)
            (y0 + ADAFRUIT_130_TFT_OFFSET_Y) (y1 + ADAFRUIT_130_TFT_OFFSET_Y)),
       tr ++ [.paint info.device buffer
            (x0 + ADAFRUIT_130_TFT_OFFSET_X) (x1 + ADAFRUIT_130_TFT_OFFSET_X)
            (y0 + ADAFRUIT_130_TFT_OFFSET_Y) (y1 + ADAFRUIT_130_TFT_OFFSET_Y)])
    ∧ ((unclipped_point_status drv info color x y tr 0 ≠ ESP_OK ∧
         draw_point drv info color x y tr =
           (unclipped_point_status drv info color x y tr 0,
            tr ++ [.caset info.device (x + ADAFRUIT_130_TFT_OFFSET_X)
                     (x + ADAFRUIT_130_TFT_OFFSET_X)]))
       ∨ (unclipped_point_status drv info color x y tr 0 = ESP_OK ∧
          unclipped_point_status drv info color x y tr 1 ≠ ESP_OK ∧
          draw_point drv info color x y tr =
            (unclipped_point_status drv info color x y tr 1,
             tr ++ [.caset info.device (x + ADAFRUIT_130_TFT_OFFSET_X)
                      (x + ADAFRUIT_130_TFT_OFFSET_X),
                    .raset info.device (y + ADAFRUIT_130_TFT_OFFSET_Y)
                      (y + ADAFRUIT_130_TFT_OFFSET_Y)]))
       ∨ (unclipped_point_status drv info color x y tr 0 = ESP_OK ∧
          unclipped_point_status drv info color x y tr 1 = ESP_OK ∧
          draw_point drv info color x y tr =
            (unclipped_point_status drv info color x y tr 2,
             tr ++ [.caset info.device (x + ADAFRUIT_130_TFT_OFFSET_X)
                      (x + ADAFRUIT_130_TFT_OFFSET_X),
                    .raset info.device (y + ADAFRUIT_130_TFT_OFFSET_Y)
                      (y + ADAFRUIT_130_TFT_OFFSET_Y),
                    .ramwr info.device [color] 1])))
    ∧ (render drv info buffer x0 y0 x1 y1 tr).1 ∈
        statuses drv tr ((render drv info buffer x0 y0 x1 y1 tr).2.drop tr.length)
    ∧ (draw_point drv info color x y tr).1 ∈
        statuses drv tr ((draw_point drv info color x y tr).2.drop tr.length) := by
  have ex : (x + ADAFRUIT_130_TFT_OFFSET_X) % 256 = x + ADAFRUIT_130_TFT_OFFSET_X := by
    apply Nat.mod_eq_of_lt
    simp only [ADAFRUIT_130_TFT_OFFSET_X]
    omega
  have ey : (y + ADAFRUIT_130_TFT_OFFSET_Y) % 256 = y + ADAFRUIT_130_TFT_OFFSET_Y := by
    apply Nat.mod_eq_of_lt
    simp only [ADAFRUIT_130_TFT_OFFSET_Y]
    omega
  refine ⟨rfl, ?_, by simp [render, st7789_paint, invoke, statuses], ?_⟩
  · by_cases h1 : unclipped_point_status drv info color x y tr 0 = ESP_OK
    · by_cases h2 : unclipped_point_status drv info color x y tr 1 = ESP_OK
      · refine Or.inr (Or.inr ⟨h1, h2, ?_⟩)
        simp only [unclipped_point_status, unclipped_point_calls] at h1 h2 ⊢
        simp at h1 h2
        simp [draw_point, st7789_caset, st7789_raset, st7789_ramwr, invoke, ex, ey, h1, h2]
      · refine Or.inr (Or.inl ⟨h1, h2, ?_⟩)
        simp only [unclipped_point_status, unclipped_point_calls] at h1 h2 ⊢
        simp at h1 h2
        simp [draw_point, st7789_caset, st7789_raset, st7789_ramwr, invoke, ex, ey, h1, h2]
    · refine Or.inl ⟨h1, ?_⟩
      simp only [unclipped_point_status, unclipped_point_calls] at h1 ⊢
      simp at h1
      simp [draw_point, st7789_caset, st7789_raset, st7789_ramwr, invoke, ex, ey, h1]
  · simp only [draw_point, st7789_caset, st7789_raset, st7789_ramwr, invoke]
    by_cases h1 : drv.status tr (.caset info.device ((x + ADAFRUIT_130_TFT_OFFSET_X) % 256)
        ((x + ADAFRUIT_130_TFT_OFFSET_X) % 256)) = ESP_OK
    · by_cases h2 : drv.status
          (tr ++ [.caset info.device ((x + ADAFRUIT_130_TFT_OFFSET_X) % 256)
            ((x + ADAFRUIT_130_TFT_OFFSET_X) % 256)])
          (.raset info.device ((y + ADAFRUIT_130_TFT_OFFSET_Y) % 256)
            ((y + ADAFRUIT_130_TFT_OFFSET_Y) % 256)) = ESP_OK
      · simp [h1, h2, statuses]
      · simp [h1, h2, statuses]
    · simp [h1, statuses]

/-- An out-of-range instance of C10: x = 250, y = 255 and a region reaching 250 and
255, on a driver whose every call succeeds.  All three pixel calls are made, with
250 and 255 as they are. -/
theorem rendering_does_not_clip_witness :
    render okDriver blankTft.info [1, 2] 250 0 255 3 [] =
      (ESP_OK, [.paint 0 [1, 2] 250 255 0 3])
    ∧ draw_point okDriver blankTft.info 0xF800 250 255 [] =
      (ESP_OK, [.caset 0 250 250, .raset 0 255 255, .ramwr 0 [0xF800] 1]) := by
  have h := rendering_does_not_clip okDriver blankTft.info [1, 2] 0xF800 250 0 255 3 250 255 []
    (by decide) (by decide)
  obtain ⟨hr, hd, _, _⟩ := h
  refine ⟨hr, ?_⟩
  rcases hd with ⟨h0, _⟩ | ⟨_, h1, _⟩ | ⟨_, _, e⟩
  · exact absurd rfl h0
  · exact absurd rfl h1
  · exact e

/-! ## Bring-up: theorems -/

/-- C4: when the seven checked steps all report success, `common_init` issues exactly
the ten commands backlight off, hardware reset, software reset, sleep-out, color mode
(16-bit), memory access control (`ST7789_CFG_MIRROR_X`), inversion on, normal mode on,
display on, backlight on, in this order, to the given device, and returns. -/
theorem common_init_success_sequence (cfg : st7789_cfg) (drv : Driver) (tft : tft_t)
    (device : st7789_device_handle_t) (tr : List DriverCall)
    (hok : ∀ k, 2 ≤ k → k ≤ 8 → step_status cfg drv device tr k = ESP_OK) :
    (common_init cfg drv tft device tr).2.2 =
      tr ++ [ .backlight device cfg.ST7789_CFG_BCKL_OFF,
              .hwreset device,
              .swreset device,
              .slpout device,
              .colmod device cfg.ST7789_CFG_16_BIT_COLOR,
              .madctl device cfg.ST7789_CFG_MIRROR_X,
              .invon device,
              .noron device,
              .dispon device,
              .backlight device cfg.ST7789_CFG_BCKL_ON ]
    ∧ (common_init cfg drv tft device tr).1 = .returned () := by
  rcases common_init_cases cfg drv tft device tr with ⟨_, e⟩ | ⟨j, h2, h8, hj, _, _⟩
  · rw [e]
    exact ⟨rfl, rfl⟩
  · exact absurd (hok j h2 h8) hj

/-- An instance of C4: a driver whose every call succeeds, device 7. -/
theorem common_init_success_sequence_witness :
    (common_init sampleCfg okDriver blankTft 7 []).2.2 =
      [ .backlight 7 0, .hwreset 7, .swreset 7, .slpout 7, .colmod 7 0x55,
        .madctl 7 0x40, .invon 7, .noron 7, .dispon 7, .backlight 7 1 ]
    ∧ (common_init sampleCfg okDriver blankTft 7 []).1 = .returned () := by
  have h := common_init_success_sequence sampleCfg okDriver blankTft 7 []
    (fun _ _ _ => rfl)
  simpa [sampleCfg] using h

/-- C5: when a checked step reports failure, `common_init` aborts with the status of
the first checked step that failed; the calls issued are the sequence up to and
including that step, so at most nine of the ten and never the closing backlight-on;
and the descriptor is exactly as it was before the call. -/
theorem common_init_failure_aborts (cfg : st7789_cfg) (drv : Driver) (tft : tft_t)
    (device : st7789_device_handle_t) (tr : List DriverCall)
    (hfail : ∃ k, 2 ≤ k ∧ k ≤ 8 ∧ step_status cfg drv device tr k ≠ ESP_OK) :
    ∃ j, 2 ≤ j ∧ j ≤ 8 ∧ step_status cfg drv device tr j ≠ ESP_OK ∧
      (∀ i, 2 ≤ i → i < j → step_status cfg drv device tr i = ESP_OK) ∧
      common_init cfg drv tft device tr =
        (.aborted (step_status cfg drv device tr j), tft,
         tr ++ (init_sequence cfg device).take (j + 1)) ∧
      ((init_sequence cfg device).take (j + 1)).length ≤ 9 ∧
      (cfg.ST7789_CFG_BCKL_ON ≠ cfg.ST7789_CFG_BCKL_OFF →
        DriverCall.backlight device cfg.ST7789_CFG_BCKL_ON ∉
          (init_sequence cfg device).take (j + 1)) := by
  rcases common_init_cases cfg drv tft device tr with ⟨hok, _⟩ | ⟨j, h2, h8, hj, hb, e⟩
  · obtain ⟨k, k2, k8, hk⟩ := hfail
    exact absurd (hok k k2 k8) hk
  · refine ⟨j, h2, h8, hj, hb, e, ?_, ?_⟩
    · simp only [List.length_take, init_sequence, List.length_cons, List.length_nil]
      omega
    · intro hne
      interval_cases j <;> simp [init_sequence, hne]

/-- An instance of C5: color-mode set fails with status -1; the run stops after five
commands and the descriptor is untouched. -/
theorem common_init_failure_aborts_witness :
    (∃ j, 2 ≤ j ∧ j ≤ 8 ∧ step_status sampleCfg colmodFailsDriver 7 [] j ≠ ESP_OK ∧
      (∀ i, 2 ≤ i → i < j → step_status sampleCfg colmodFailsDriver 7 [] i = ESP_OK) ∧
      common_init sampleCfg colmodFailsDriver blankTft 7 [] =
        (.aborted (step_status sampleCfg colmodFailsDriver 7 [] j), blankTft,
         [] ++ (init_sequence sampleCfg 7).take (j + 1)) ∧
      ((init_sequence sampleCfg 7).take (j + 1)).length ≤ 9 ∧
      (sampleCfg.ST7789_CFG_BCKL_ON ≠ sampleCfg.ST7789_CFG_BCKL_OFF →
        DriverCall.backlight 7 sampleCfg.ST7789_CFG_BCKL_ON ∉
          (init_sequence sampleCfg 7).take (j + 1)))
    ∧ common_init sampleCfg colmodFailsDriver blankTft 7 [] =
        (.aborted (-1), blankTft,
         [.backlight 7 0, .hwreset 7, .swreset 7, .slpout 7, .colmod 7 0x55]) :=
  ⟨common_init_failure_aborts sampleCfg colmodFailsDriver blankTft 7 []
    ⟨4, by decide, by decide, by decide⟩, rfl⟩

/-- C6: a successful initialization through either creation path leaves bit depth 16,
width 240, height 240 and orientation upright, whatever the parameters and the prior
content of the descriptor; and a further successful initialization of the same
descriptor on the same device leaves the descriptor as the first run left it. -/
theorem init_idempotent_on_success (cfg : st7789_cfg) (drv : Driver)
    (params : st7789_params_t) (tft : tft_t) (device : st7789_device_handle_t)
    (tr : List DriverCall) (tft1 : tft_t) (tr1 : List DriverCall)
    (hfirst :
      adafruit_130_tft_init_static cfg drv params tft device tr = (.returned (), tft1, tr1)
      ∨ adafruit_130_tft_init cfg drv params (some tft) tr = (.returned tft1, tr1)) :
    tft1.info.bitdepth = 16 ∧ tft1.info.width = 240 ∧ tft1.info.height = 240 ∧
    tft1.info.orientation = .TFT_UPRIGHT ∧
    (∀ params2 tr2 tft2 tr3,
      adafruit_130_tft_init_static cfg drv params2 tft1 tft1.info.device tr2 =
        (.returned (), tft2, tr3) → tft2 = tft1) ∧
    (∀ tr2 tft2 tr3,
      common_init cfg drv tft1 tft1.info.device tr2 = (.returned (), tft2, tr3) →
        tft2 = tft1) := by
  have key : ∃ d, tft1 = ready_descriptor d := by
    rcases hfirst with h | h
    · rcases init_static_cases cfg drv params tft device tr with ⟨_, e⟩ | ⟨j, _, _, _, _, e⟩
      · rw [e] at h
        exact ⟨device, (congrArg (fun r => r.2.1) h).symm⟩
      · rw [e] at h
        have h1 := congrArg (fun r => r.1) h
        simp at h1
    · rcases init_dynamic_cases cfg drv params tft tr with ⟨_, e⟩ | ⟨j, _, _, _, _, e⟩
      · rw [e] at h
        have h1 := congrArg (fun r => r.1) h
        simp only [Outcome.returned.injEq] at h1
        exact ⟨_, h1.symm⟩
      · rw [e] at h
        have h1 := congrArg (fun r => r.1) h
        simp at h1
  obtain ⟨d, rfl⟩ := key
  refine ⟨rfl, rfl, rfl, rfl, ?_, ?_⟩
  · intro params2 tr2 tft2 tr3 h
    rcases init_static_cases cfg drv params2 (ready_descriptor d) (ready_descriptor d).info.device
      tr2 with ⟨_, e⟩ | ⟨j, _, _, _, _, e⟩
    · rw [e] at h
      exact (congrArg (fun r => r.2.1) h).symm
    · rw [e] at h
      have h1 := congrArg (fun r => r.1) h
      simp at h1
  · intro tr2 tft2 tr3 h
    rcases common_init_cases cfg drv (ready_descriptor d) (ready_descriptor d).info.device
      tr2 with ⟨_, e⟩ | ⟨j, _, _, _, _, e⟩
    · rw [e] at h
      exact (congrArg (fun r => r.2.1) h).symm
    · rw [e] at h
      have h1 := congrArg (fun r => r.1) h
      simp at h1

/-- An instance of C6: the pre-allocated path on a driver whose every call succeeds,
started from a descriptor with other content; a second run with other parameters
succeeds as well and leaves the same descriptor. -/
theorem init_idempotent_on_success_witness :
    adafruit_130_tft_init_static sampleCfg okDriver ⟨[5]⟩ blankTft 7 [] =
      (.returned (), ready_descriptor 7,
       [DriverCall.init_static ⟨[5]⟩ 7] ++ init_sequence sampleCfg 7)
    ∧ adafruit_130_tft_init_static sampleCfg okDriver ⟨[6]⟩ (ready_descriptor 7) 7
        ([DriverCall.init_static ⟨[5]⟩ 7] ++ init_sequence sampleCfg 7) =
      (.returned (), ready_descriptor 7,
       [DriverCall.init_static ⟨[5]⟩ 7] ++ init_sequence sampleCfg 7 ++
         ([DriverCall.init_static ⟨[6]⟩ 7] ++ init_sequence sampleCfg 7))
    ∧ ((ready_descriptor 7).info.bitdepth = 16 ∧ (ready_descriptor 7).info.width = 240 ∧
       (ready_descriptor 7).info.height = 240 ∧
       (ready_descriptor 7).info.orientation = .TFT_UPRIGHT ∧
       (∀ params2 tr2 tft2 tr3,
         adafruit_130_tft_init_static sampleCfg okDriver params2 (ready_descriptor 7)
           (ready_descriptor 7).info.device tr2 = (.returned (), tft2, tr3) →
           tft2 = ready_descriptor 7) ∧
       (∀ tr2 tft2 tr3,
         common_init sampleCfg okDriver (ready_descriptor 7)
           (ready_descriptor 7).info.device tr2 = (.returned (), tft2, tr3) →
           tft2 = ready_descriptor 7)) :=
  ⟨rfl, rfl,
   init_idempotent_on_success sampleCfg okDriver ⟨[5]⟩ blankTft 7 [] (ready_descriptor 7)
     ([DriverCall.init_static ⟨[5]⟩ 7] ++ init_sequence sampleCfg 7) (Or.inl rfl)⟩

/-- C7: the two creation paths differ only in how the descriptor and the device are
obtained.  When the driver reports the same statuses for the checked steps on both
paths, both paths issue, after their device-creation call, the same number of
commands of the same sequence, each to its own device; either both return, with
descriptors that agree in everything but the device reference, which is the device
of the path, or both abort with the same status. -/
theorem creation_paths_agree (cfg : st7789_cfg) (drv : Driver) (params : st7789_params_t)
    (tft0 tft1 : tft_t) (device : st7789_device_handle_t) (tr : List DriverCall)
    (hsame : ∀ k, 2 ≤ k → k ≤ 8 →
      step_status cfg drv (drv.new_device tr params) (tr ++ [.init params]) k =
        step_status cfg drv device (tr ++ [.init_static params device]) k) :
    ∃ n, n ≤ 10 ∧
      (adafruit_130_tft_init cfg drv params (some tft0) tr).2 =
        tr ++ [.init params] ++ (init_sequence cfg (drv.new_device tr params)).take n ∧
      (adafruit_130_tft_init_static cfg drv params tft1 device tr).2.2 =
        tr ++ [.init_static params device] ++ (init_sequence cfg device).take n ∧
      ((n = 10 ∧ ∃ ts,
          (adafruit_130_tft_init_static cfg drv params tft1 device tr).1 = .returned () ∧
          (adafruit_130_tft_init_static cfg drv params tft1 device tr).2.1 = ts ∧
          ts.info.device = device ∧
          (adafruit_130_tft_init cfg drv params (some tft0) tr).1 =
            .returned { ts with info := { ts.info with device := drv.new_device tr params } })
       ∨ (n < 10 ∧ ∃ code, code ≠ ESP_OK ∧
          (adafruit_130_tft_init_static cfg drv params tft1 device tr).1 = .aborted code ∧
          (adafruit_130_tft_init cfg drv params (some tft0) tr).1 = .aborted code)) := by
  rcases init_dynamic_cases cfg drv params tft0 tr with
    ⟨hd, ed⟩ | ⟨jd, hd2, hd8, hdj, hdb, ed⟩
  · rcases init_static_cases cfg drv params tft1 device tr with
      ⟨_, es⟩ | ⟨js, hs2, hs8, hsj, _, _⟩
    · refine ⟨10, le_refl _, ?_, ?_, Or.inl ⟨rfl, ready_descriptor device, ?_, ?_, rfl, ?_⟩⟩
      · rw [ed]
        simp [init_sequence]
      · rw [es]
        simp [init_sequence]
      · rw [es]
      · rw [es]
      · rw [ed]
        rfl
    · exact absurd ((hsame js hs2 hs8).symm.trans (hd js hs2 hs8)) hsj
  · rcases init_static_cases cfg drv params tft1 device tr with
      ⟨hs, _⟩ | ⟨js, hs2, hs8, hsj, hsb, es⟩
    · exact absurd ((hsame jd hd2 hd8).trans (hs jd hd2 hd8)) hdj
    · have hjj : jd = js := by
        rcases Nat.lt_trichotomy jd js with hlt | heq | hgt
        · exact absurd ((hsame jd hd2 hd8).trans (hsb jd hd2 hlt)) hdj
        · exact heq
        · exact absurd ((hsame js hs2 hs8).symm.trans (hdb js hs2 hgt)) hsj
      subst hjj
      refine ⟨jd + 1, by omega, ?_, ?_, Or.inr ⟨by omega, _, hdj, ?_, ?_⟩⟩
      · rw [ed]
      · rw [es]
      · rw [es]
        exact congrArg Outcome.aborted (hsame jd hd2 hd8).symm
      · rw [ed]

/-- An instance of C7: a driver whose every call succeeds; the dynamic path gets
device 7 from the driver, the pre-allocated path is given device 9. -/
theorem creation_paths_agree_witness :
    (∃ n, n ≤ 10 ∧
      (adafruit_130_tft_init sampleCfg okDriver ⟨[5]⟩ (some blankTft) []).2 =
        [] ++ [DriverCall.init ⟨[5]⟩] ++
          (init_sequence sampleCfg (okDriver.new_device [] ⟨[5]⟩)).take n ∧
      (adafruit_130_tft_init_static sampleCfg okDriver ⟨[5]⟩ (ready_descriptor 3) 9 []).2.2 =
        [] ++ [DriverCall.init_static ⟨[5]⟩ 9] ++ (init_sequence sampleCfg 9).take n ∧
      ((n = 10 ∧ ∃ ts,
          (adafruit_130_tft_init_static sampleCfg okDriver ⟨[5]⟩ (ready_descriptor 3) 9 []).1 =
            .returned () ∧
          (adafruit_130_tft_init_static sampleCfg okDriver ⟨[5]⟩ (ready_descriptor 3) 9
            []).2.1 = ts ∧
          ts.info.device = 9 ∧
          (adafruit_130_tft_init sampleCfg okDriver ⟨[5]⟩ (some blankTft) []).1 =
            .returned { ts with
              info := { ts.info with device := okDriver.new_device [] ⟨[5]⟩ } })
       ∨ (n < 10 ∧ ∃ code, code ≠ ESP_OK ∧
          (adafruit_130_tft_init_static sampleCfg okDriver ⟨[5]⟩ (ready_descriptor 3) 9 []).1 =
            .aborted code ∧
          (adafruit_130_tft_init sampleCfg okDriver ⟨[5]⟩ (some blankTft) []).1 =
            .aborted code)))
    ∧ adafruit_130_tft_init sampleCfg okDriver ⟨[5]⟩ (some blankTft) [] =
        (.returned (ready_descriptor 7), [DriverCall.init ⟨[5]⟩] ++ init_sequence sampleCfg 7)
    ∧ adafruit_130_tft_init_static sampleCfg okDriver ⟨[5]⟩ (ready_descriptor 3) 9 [] =
        (.returned (), ready_descriptor 9,
         [DriverCall.init_static ⟨[5]⟩ 9] ++ init_sequence sampleCfg 9) :=
  ⟨creation_paths_agree sampleCfg okDriver ⟨[5]⟩ blankTft (ready_descriptor 3) 9 []
    (fun _ _ _ => rfl), rfl, rfl⟩

/-- C8: on the dynamic path, when the allocation of the descriptor fails, the routine
ends in a restart: nothing is returned, the only driver call made is the device
creation that precedes the allocation, so no command of the bring-up sequence is
issued, and there is no descriptor to write.  A descriptor is returned exactly when
the allocation succeeded and every checked step reported success, and then the whole
sequence has been issued. -/
theorem init_alloc_failure_restarts (cfg : st7789_cfg) (drv : Driver)
    (params : st7789_params_t) (tr : List DriverCall) :
    adafruit_130_tft_init cfg drv params none tr = (.restarted, tr ++ [.init params])
    ∧ (∀ c ∈ [DriverCall.init params], ∀ d, c ∉ init_sequence cfg d)
    ∧ (∀ malloc,
        (∃ t, (adafruit_130_tft_init cfg drv params malloc tr).1 = .returned t) ↔
          (malloc.isSome = true ∧
           ∀ k, 2 ≤ k → k ≤ 8 →
             step_status cfg drv (drv.new_device tr params) (tr ++ [.init params]) k
               = ESP_OK))
    ∧ (∀ malloc t, (adafruit_130_tft_init cfg drv params malloc tr).1 = .returned t →
        (adafruit_130_tft_init cfg drv params malloc tr).2 =
          tr ++ [.init params] ++ init_sequence cfg (drv.new_device tr params)) := by
  refine ⟨rfl, ?_, ?_, ?_⟩
  · intro c hc d
    simp only [List.mem_singleton] at hc
    subst hc
    simp [init_sequence]
  · intro malloc
    cases malloc with
    | none =>
      simp [adafruit_130_tft_init]
    | some tft =>
      rcases init_dynamic_cases cfg drv params tft tr with ⟨hok, e⟩ | ⟨j, h2, h8, hj, _, e⟩
      · rw [e]
        simpa using hok
      · rw [e]
        simp only [false_iff, reduceCtorEq, exists_false, Option.isSome_some, true_and]
        intro hall
        exact hj (hall j h2 h8)
  · intro malloc t h
    cases malloc with
    | none =>
      simp [adafruit_130_tft_init] at h
    | some tft =>
      rcases init_dynamic_cases cfg drv params tft tr with ⟨_, e⟩ | ⟨j, _, _, _, _, e⟩
      · rw [e]
      · rw [e] at h
        simp at h

/-- C9: after a successful initialization the orientation-change slot is unset, the
render slot holds `render`, the draw-point slot holds `draw_point`, and the device
reference is the device the sequence was run on; every driver call that either
stored operation makes when given the descriptor's own info addresses that device. -/
theorem descriptor_wiring (cfg : st7789_cfg) (drv : Driver) (params : st7789_params_t)
    (tft : tft_t) (device : st7789_device_handle_t) (tr : List DriverCall)
    (tft1 : tft_t) (tr1 : List DriverCall)
    (hinit :
      common_init cfg drv tft device tr = (.returned (), tft1, tr1)
      ∨ adafruit_130_tft_init_static cfg drv params tft device tr = (.returned (), tft1, tr1)
      ∨ (adafruit_130_tft_init cfg drv params (some tft) tr = (.returned tft1, tr1) ∧
         device = drv.new_device tr params)) :
    tft1.set_orientation = none ∧
    tft1.render16 = some render ∧
    tft1.draw16_point = some draw_point ∧
    tft1.info.device = device ∧
    (∀ f, tft1.render16 = some f → ∀ drv2 buffer x0 y0 x1 y1 tr2,
      ∃ calls, (f drv2 tft1.info buffer x0 y0 x1 y1 tr2).2 = tr2 ++ calls ∧ calls ≠ [] ∧
        ∀ c ∈ calls, c.target = some device) ∧
    (∀ g, tft1.draw16_point = some g → ∀ drv2 color x y tr2,
      ∃ calls, (g drv2 tft1.info color x y tr2).2 = tr2 ++ calls ∧ calls ≠ [] ∧
        ∀ c ∈ calls, c.target = some device) := by
  have key : tft1 = ready_descriptor device := by
    rcases hinit with h | h | ⟨h, hdev⟩
    · rcases common_init_cases cfg drv tft device tr with ⟨_, e⟩ | ⟨j, _, _, _, _, e⟩
      · rw [e] at h
        exact (congrArg (fun r => r.2.1) h).symm
      · rw [e] at h
        have h1 := congrArg (fun r => r.1) h
        simp at h1
    · rcases init_static_cases cfg drv params tft device tr with ⟨_, e⟩ | ⟨j, _, _, _, _, e⟩
      · rw [e] at h
        exact (congrArg (fun r => r.2.1) h).symm
      · rw [e] at h
        have h1 := congrArg (fun r => r.1) h
        simp at h1
    · rcases init_dynamic_cases cfg drv params tft tr with ⟨_, e⟩ | ⟨j, _, _, _, _, e⟩
      · rw [e] at h
        have h1 := congrArg (fun r => r.1) h
        simp only [Outcome.returned.injEq] at h1
        rw [hdev]
        exact h1.symm
      · rw [e] at h
        have h1 := congrArg (fun r => r.1) h
        simp at h1
  subst key
  refine ⟨rfl, rfl, rfl, rfl, ?_, ?_⟩
  · intro f hf drv2 buffer x0 y0 x1 y1 tr2
    have hf2 : f = render := by
      simp only [ready_descriptor, Option.some.injEq] at hf
      exact hf.symm
    subst hf2
    exact ⟨_, congrArg Prod.snd
      (render_shape drv2 (ready_descriptor device).info buffer x0 y0 x1 y1 tr2),
      by simp, by simp [ready_descriptor, DriverCall.target]⟩
  · intro g hg drv2 color x y tr2
    have hg2 : g = draw_point := by
      simp only [ready_descriptor, Option.some.injEq] at hg
      exact hg.symm
    subst hg2
    rcases draw_point_shape drv2 (ready_descriptor device).info color x y tr2 with
      ⟨n, h1, _, e⟩
    refine ⟨_, e, ?_, ?_⟩
    · intro hnil
      have hl := congrArg List.length hnil
      simp [point_calls] at hl
      omega
    · intro c hc
      have hc2 := List.mem_of_mem_take hc
      simp only [point_calls, List.mem_cons, List.mem_singleton, List.not_mem_nil,
        or_false] at hc2
      rcases hc2 with rfl | rfl | rfl <;> simp [ready_descriptor, DriverCall.target]

/-- An instance of C9: initialization on a driver whose every call succeeds, device 7. -/
theorem descriptor_wiring_witness :
    common_init sampleCfg okDriver blankTft 7 [] =
      (.returned (), ready_descriptor 7, init_sequence sampleCfg 7)
    ∧ (ready_descriptor 7).set_orientation = none
    ∧ (ready_descriptor 7).render16 = some render
    ∧ (ready_descriptor 7).draw16_point = some draw_point
    ∧ (ready_descriptor 7).info.device = 7
    ∧ (∀ f, (ready_descriptor 7).render16 = some f → ∀ drv2 buffer x0 y0 x1 y1 tr2,
        ∃ calls, (f drv2 (ready_descriptor 7).info buffer x0 y0 x1 y1 tr2).2 =
            tr2 ++ calls ∧ calls ≠ [] ∧
          ∀ c ∈ calls, c.target = some 7)
    ∧ (∀ g, (ready_descriptor 7).draw16_point = some g → ∀ drv2 color x y tr2,
        ∃ calls, (g drv2 (ready_descriptor 7).info color x y tr2).2 = tr2 ++ calls ∧
          calls ≠ [] ∧
          ∀ c ∈ calls, c.target = some 7) :=
  ⟨rfl, descriptor_wiring sampleCfg okDriver ⟨[5]⟩ blankTft 7 [] (ready_descriptor 7)
    (init_sequence sampleCfg 7) (Or.inl rfl)⟩

end Adafruit130Tft
